import Mathlib

/-!
Shallow embedding of `src/modal/render_video.py` ("unscroll-video-render"):
a Modal deployment exposing `render_video` (render invoker, runs a generated
Node driver script as a subprocess) and `render_video_endpoint` (HTTP
adapter).  JSON values are modelled by the inductive `J`; the environment a
single invocation interacts with (the child's exit code, existence and
contents of `/tmp/output.mp4`) by `World`; the filesystem / subprocess side
effects by traces of `FsAction`.
-/

namespace Spool

/-- JSON values, as carried by Python dicts/lists and by the JSON blob handed
to the driver on its command line.  Numbers are modelled as rationals. -/
inductive J : Type where
  | null : J
  | bool : Bool → J
  | num : ℚ → J
  | str : String → J
  | arr : List J → J
  | obj : List (String × J) → J

/-- Association-list lookup for a JSON object / Python dict body. -/
def jlookup (key : String) : List (String × J) → Option J
  | [] => none
  | (k, v) :: rest => if k = key then some v else jlookup key rest

/-- Python `x or d` for `x : list | None`: `None` and the empty list are
falsy, so both are replaced by the default; a non-empty list passes through. -/
def pyOrList (x : Option (List J)) (d : List J) : List J :=
  match x with
  | none => d
  | some l => if l.isEmpty then d else l

/-- The default gradient colours `["#1a1a2e", "#16213e"]` (lines 88 and 131
of the source). -/
def defaultGradientColors : List J := [J.str "#1a1a2e", J.str "#16213e"]

/-- Python `hook` (`str | None`) as a JSON value: `None` serialises to
`null`. -/
def jOfOptStr (x : Option String) : J :=
  match x with
  | none => J.null
  | some s => J.str s

/-- The `params` dict built by `render_video` (source lines 125-134), in
insertion order, exactly as serialised by `json.dumps` and handed to the
child process as its single command-line argument. -/
def paramsObj (audio_url background_url background_type : String)
    (captions : List J) (duration_in_seconds : ℚ)
    (gradient_colors : Option (List J)) (hook : Option String)
    (pattern_interrupts : Option (List J)) : List (String × J) :=
  [("audioUrl", J.str audio_url),
   ("backgroundUrl", J.str background_url),
   ("backgroundType", J.str background_type),
   ("captions", J.arr captions),
   ("durationInSeconds", J.num duration_in_seconds),
   ("gradientColors", J.arr (pyOrList gradient_colors defaultGradientColors)),
   ("hook", jOfOptStr hook),
   ("patternInterrupts", J.arr (pyOrList pattern_interrupts []))]

/-- The driver script written to `/app/video/render.js`, verbatim from the
Python string literal (source lines 71-119).  `\x7b`/`\x7d` are the brace
characters and `\x27` the single quote. -/
def render_script : String :=
  "\n"
  ++ "const \x7b renderVideo \x7d = require(\x27@revideo/renderer\x27);\n"
  ++ "const fs = require(\x27fs\x27);\n"
  ++ "\n"
  ++ "const params = JSON.parse(process.argv[2]);\n"
  ++ "\n"
  ++ "let lastLoggedPct = -1;\n"
  ++ "async function main() \x7b\n"
  ++ "    console.log(\x27[render] Starting Revideo render...\x27);\n"
  ++ "    await renderVideo(\x7b\n"
  ++ "        projectFile: \x27/app/video/src/project.ts\x27,\n"
  ++ "        variables: \x7b\n"
  ++ "            audioUrl: params.audioUrl,\n"
  ++ "            backgroundUrl: params.backgroundUrl,\n"
  ++ "            backgroundType: params.backgroundType,\n"
  ++ "            captions: params.captions,\n"
  ++ "            durationInSeconds: params.durationInSeconds,\n"
  ++ "            gradientColors: params.gradientColors || [\x27#1a1a2e\x27, \x27#16213e\x27],\n"
  ++ "            hook: params.hook,\n"
  ++ "            patternInterrupts: params.patternInterrupts || [],\n"
  ++ "        \x7d,\n"
  ++ "        settings: \x7b\n"
  ++ "            outDir: \x27/tmp\x27,\n"
  ++ "            outFile: \x27output.mp4\x27,\n"
  ++ "            logProgress: true,\n"
  ++ "            progressCallback: (workerId, progress) => \x7b\n"
  ++ "                const pct = Math.floor(progress * 10) * 10;\n"
  ++ "                if (pct > lastLoggedPct) \x7b\n"
  ++ "                    lastLoggedPct = pct;\n"
  ++ "                    console.log(\x27[render] Progress: \x27 + pct + \x27%\x27);\n"
  ++ "                \x7d\n"
  ++ "            \x7d,\n"
  ++ "            puppeteer: \x7b\n"
  ++ "                args: [\n"
  ++ "                    \x27--no-sandbox\x27,\n"
  ++ "                    \x27--disable-setuid-sandbox\x27,\n"
  ++ "                    \x27--disable-dev-shm-usage\x27,\n"
  ++ "                ],\n"
  ++ "            \x7d,\n"
  ++ "        \x7d,\n"
  ++ "    \x7d);\n"
  ++ "    console.log(\x27[render] RENDER_COMPLETE\x27);\n"
  ++ "\x7d\n"
  ++ "\n"
  ++ "main().catch(err => \x7b\n"
  ++ "    console.error(\x27[render] ERROR:\x27, err);\n"
  ++ "    process.exit(1);\n"
  ++ "\x7d);\n"

/-- Filesystem / subprocess effects performed by one invocation of
`render_video`, in program order. -/
inductive FsAction : Type where
  | writeFile (path : String) (content : String)
  | runSubprocess (argv0 : String) (argv1 : String) (jsonArg : J) (cwd : String)
  | checkExists (path : String)
  | getSize (path : String)
  | readFile (path : String)

/-- The environment one invocation runs against: the exit code the child
process comes back with, and whether/what `/tmp/output.mp4` holds when the
child has exited.  File bytes are naturals below 256. -/
structure World : Type where
  returncode : ℤ
  outputExists : Bool
  outputContents : List ℕ
  deriving DecidableEq, Repr

/-- `render_video` (source lines 56-156): writes the driver script, runs
`node render.js <json>` with cwd `/app/video`, raises on a non-zero exit
code, raises if `/tmp/output.mp4` is missing, otherwise stats and reads the
file and returns its bytes.  Returns the Python result (`Except` for a
raised exception) paired with the trace of effects performed. -/
def render_video (audio_url background_url background_type : String)
    (captions : List J) (duration_in_seconds : ℚ)
    (gradient_colors : Option (List J)) (hook : Option String)
    (pattern_interrupts : Option (List J)) (w : World) :
    Except String (List ℕ) × List FsAction :=
  let params := paramsObj audio_url background_url background_type captions
    duration_in_seconds gradient_colors hook pattern_interrupts
  let pre : List FsAction :=
    [FsAction.writeFile "/app/video/render.js" render_script,
     FsAction.runSubprocess "node" "/app/video/render.js" (J.obj params) "/app/video"]
  if w.returncode ≠ 0 then
    (Except.error ("Render process exited with code " ++ toString w.returncode), pre)
  else if w.outputExists = false then
    (Except.error "Output file not found at /tmp/output.mp4",
     pre ++ [FsAction.checkExists "/tmp/output.mp4"])
  else
    (Except.ok w.outputContents,
     pre ++ [FsAction.checkExists "/tmp/output.mp4",
             FsAction.getSize "/tmp/output.mp4",
             FsAction.readFile "/tmp/output.mp4"])

/-! ### base64 (Python `base64.b64encode` / `b64decode` on the video bytes) -/

/-- The standard base64 alphabet used by `base64.b64encode`. -/
def b64Alphabet : List Char :=
  ("ABCDEFGHIJKLMNOPQRSTUVWXYZabcdefghijklmnopqrstuvwxyz0123456789+/").toList

/-- Character for a sextet value (below 64). -/
def sextetChar (n : ℕ) : Char := b64Alphabet.getD n '='

/-- Sextet value of an alphabet character, `none` for anything else. -/
def charSextet (c : Char) : Option ℕ := b64Alphabet.indexOf? c

/-- `base64.b64encode` on a byte list: 3 input bytes become 4 alphabet
characters; a 1- or 2-byte tail is padded with `'='`. -/
def encodeB64 : List ℕ → List Char
  | [] => []
  | [a] => [sextetChar (a / 4), sextetChar (a % 4 * 16), '=', '=']
  | [a, b] =>
      [sextetChar (a / 4), sextetChar (a % 4 * 16 + b / 16), sextetChar (b % 16 * 4), '=']
  | a :: b :: c :: rest =>
      sextetChar (a / 4) :: sextetChar (a % 4 * 16 + b / 16) ::
        sextetChar (b % 16 * 4 + c / 64) :: sextetChar (c % 64) :: encodeB64 rest

/-- Decoding of a final (possibly `'='`-padded) 4-character base64 block. -/
def decodeB64Block (c1 c2 c3 c4 : Char) : Option (List ℕ) :=
  match charSextet c1, charSextet c2 with
  | some s1, some s2 =>
    if c3 = '=' then
      if c4 = '=' then
        if s2 % 16 = 0 then some [s1 * 4 + s2 / 16] else none
      else none
    else
      match charSextet c3 with
      | some s3 =>
        if c4 = '=' then
          if s3 % 4 = 0 then some [s1 * 4 + s2 / 16, s2 % 16 * 16 + s3 / 4] else none
        else
          match charSextet c4 with
          | some s4 => some [s1 * 4 + s2 / 16, s2 % 16 * 16 + s3 / 4, s3 % 4 * 64 + s4]
          | none => none
      | none => none
  | _, _ => none

/-- `base64.b64decode` (strict): inverse of `encodeB64`, `none` on malformed
input.  Padding is only admitted in the final block. -/
def decodeB64 : List Char → Option (List ℕ)
  | [] => some []
  | [c1, c2, c3, c4] => decodeB64Block c1 c2 c3 c4
  | c1 :: c2 :: c3 :: c4 :: rest =>
      match charSextet c1, charSextet c2, charSextet c3, charSextet c4, decodeB64 rest with
      | some s1, some s2, some s3, some s4, some tail =>
          some ((s1 * 4 + s2 / 16) :: (s2 % 16 * 16 + s3 / 4) :: (s3 % 4 * 64 + s4) :: tail)
      | _, _, _, _, _ => none
  | _ => none

/-! ### HTTP adapter (`render_video_endpoint`, source lines 159-191) -/

/-- The POST body: for each key the endpoint touches, `some v` when present,
`none` when absent (for the `.get` keys, JSON `null` also arrives as
`None`).  Values carry the types the Python signature of `render_video`
declares for them. -/
structure RequestData : Type where
  audioUrl : Option String
  backgroundUrl : Option String
  backgroundType : Option String
  captions : Option (List J)
  durationInSeconds : Option ℚ
  gradientColors : Option (List J)
  hook : Option String
  patternInterrupts : Option (List J)

/-- `data["key"]`: the value when the key is present, otherwise a raised
`KeyError` whose `str()` is the quoted key. -/
def getRequired {α : Type} (x : Option α) (key : String) : Except String α :=
  match x with
  | some v => Except.ok v
  | none => Except.error ("\x27" ++ key ++ "\x27")

/-- The try-block of `render_video_endpoint`: extract the required keys in
source order (a missing one raises `KeyError`), default `captions` to `[]`,
pass the `.get` keys through, and invoke `render_video`.  Returns the
Python outcome paired with the effect trace of the `render_video` call
(empty when a `KeyError` fires before the call). -/
def endpointPipeline (data : RequestData) (w : World) :
    Except String (List ℕ) × List FsAction :=
  match getRequired data.audioUrl "audioUrl" with
  | Except.error e => (Except.error e, [])
  | Except.ok au =>
    match getRequired data.backgroundUrl "backgroundUrl" with
    | Except.error e => (Except.error e, [])
    | Except.ok bu =>
      match getRequired data.backgroundType "backgroundType" with
      | Except.error e => (Except.error e, [])
      | Except.ok bt =>
        match getRequired data.durationInSeconds "durationInSeconds" with
        | Except.error e => (Except.error e, [])
        | Except.ok dur =>
          render_video au bu bt (data.captions.getD []) dur
            data.gradientColors data.hook data.patternInterrupts w

/-- `render_video_endpoint` (source lines 166-191): on success return
`{"success": True, "videoBase64": b64, "size": n}`; on any exception return
`{"success": False, "error": str(e)}`.  The response dict is modelled as a
key/value list in insertion order; the effect trace is carried alongside. -/
def render_video_endpoint (data : RequestData) (w : World) :
    List (String × J) × List FsAction :=
  match endpointPipeline data w with
  | (Except.ok video_bytes, tr) =>
      ([("success", J.bool true),
        ("videoBase64", J.str (String.mk (encodeB64 video_bytes))),
        ("size", J.num (video_bytes.length : ℚ))], tr)
  | (Except.error e, tr) =>
      ([("success", J.bool false), ("error", J.str e)], tr)

/-! ### Render driver (the generated `render.js`, source lines 71-119) -/

/-- JavaScript truthiness of a JSON value: `null`, `false`, `0` and `""`
are falsy; arrays and objects (even empty) are truthy. -/
def jsFalsy : J → Bool
  | J.null => true
  | J.bool b => !b
  | J.num q => q = 0
  | J.str s => s = ""
  | J.arr _ => false
  | J.obj _ => false

/-- JavaScript `x || d` where `x` may also be absent (`undefined`). -/
def jsOr (x : Option J) (d : J) : J :=
  match x with
  | none => d
  | some v => if jsFalsy v then d else v

/-- The fields the driver reads off the parsed JSON argument object
(`params.field`): `none` models an absent property (`undefined`). -/
structure DriverArgs : Type where
  audioUrl : Option J
  backgroundUrl : Option J
  backgroundType : Option J
  captions : Option J
  durationInSeconds : Option J
  gradientColors : Option J
  hook : Option J
  patternInterrupts : Option J

/-- The `variables` object the driver hands to `renderVideo`: fields with no
`||` default keep `none` (`undefined`) when absent. -/
structure DriverVariables : Type where
  audioUrl : Option J
  backgroundUrl : Option J
  backgroundType : Option J
  captions : Option J
  durationInSeconds : Option J
  gradientColors : J
  hook : Option J
  patternInterrupts : J

/-- Construction of the `variables` object in the driver script (source
lines 82-91): `gradientColors` and `patternInterrupts` get `||` defaults;
`audioUrl` … `durationInSeconds` and `hook` are passed through unchanged. -/
def render_script_variables (params : DriverArgs) : DriverVariables :=
  { audioUrl := params.audioUrl
    backgroundUrl := params.backgroundUrl
    backgroundType := params.backgroundType
    captions := params.captions
    durationInSeconds := params.durationInSeconds
    gradientColors := jsOr params.gradientColors (J.arr defaultGradientColors)
    hook := params.hook
    patternInterrupts := jsOr params.patternInterrupts (J.arr []) }

/-! ### Progress callback (driver script, source lines 96-102) -/

/-- `Math.floor(progress * 10) * 10`: progress rounded down to the nearest
10%. -/
def pctOf (progress : ℚ) : ℤ := Rat.floor (progress * 10) * 10

/-- Mutable state of the driver around the progress callback: the
`lastLoggedPct` variable and the percentages logged so far, in order. -/
structure CallbackState : Type where
  lastLoggedPct : ℤ
  log : List ℤ

/-- State before any callback fires: `lastLoggedPct = -1`, nothing logged. -/
def initCallbackState : CallbackState := { lastLoggedPct := -1, log := [] }

/-- One firing of `progressCallback`: log `pct` and update `lastLoggedPct`
only when `pct > lastLoggedPct`. -/
def progressCallback (s : CallbackState) (progress : ℚ) : CallbackState :=
  let pct := pctOf progress
  if pct > s.lastLoggedPct then { lastLoggedPct := pct, log := s.log ++ [pct] } else s

/-- The state after a whole sequence of progress values has been delivered. -/
def runCallbacks (ps : List ℚ) : CallbackState :=
  ps.foldl progressCallback initCallbackState

/-! ### Helper predicates on results and traces -/

/-- Did the Python call return bytes (as opposed to raising)? -/
def returnsBytes : Except String (List ℕ) → Bool
  | Except.ok _ => true
  | Except.error _ => false

/-- Actions that check for, stat, or read a file. -/
def checksOrReadsFile : FsAction → Bool
  | FsAction.checkExists _ => true
  | FsAction.getSize _ => true
  | FsAction.readFile _ => true
  | _ => false

/-- Actions that read a file's contents. -/
def isReadFile : FsAction → Bool
  | FsAction.readFile _ => true
  | _ => false

/-- Blank out the JSON command-line argument of a subprocess launch, keeping
every other observable of the trace. -/
def eraseJsonArg : FsAction → FsAction
  | FsAction.runSubprocess a0 a1 _ cwd => FsAction.runSubprocess a0 a1 J.null cwd
  | a => a

/-! ### base64 round-trip lemmas -/

lemma charSextet_sextetChar : ∀ n : ℕ, n < 64 → charSextet (sextetChar n) = some n := by
  decide

lemma sextetChar_ne_pad : ∀ n : ℕ, n < 64 → sextetChar n ≠ '=' := by
  decide

lemma encodeB64_ne_nil : ∀ l : List ℕ, l ≠ [] → encodeB64 l ≠ [] := by
  intro l hl
  match l with
  | [a] => simp [encodeB64]
  | [a, b] => simp [encodeB64]
  | a :: b :: c :: rest => simp [encodeB64]

lemma mulAddDivLt (k m t : ℕ) (hk : 0 < k) (ht : t < k) : (m * k + t) / k = m := by
  rw [Nat.mul_comm m k, Nat.mul_add_div hk, Nat.div_eq_of_lt ht, Nat.add_zero]

lemma mulAddModLt (k m t : ℕ) (ht : t < k) : (m * k + t) % k = t := by
  rw [Nat.mul_comm m k, Nat.mul_add_mod, Nat.mod_eq_of_lt ht]

/-- base64 decoding inverts base64 encoding on genuine byte lists. -/
theorem decodeB64_encodeB64 :
    ∀ l : List ℕ, (∀ b ∈ l, b < 256) → decodeB64 (encodeB64 l) = some l
  | [], _ => by simp [encodeB64, decodeB64]
  | [a], h => by
    have ha : a < 256 := h a (by simp)
    have h1 : a / 4 < 64 := by omega
    have h2 : a % 4 * 16 < 64 := by omega
    have hm : a % 4 * 16 % 16 = 0 := Nat.mul_mod_left (a % 4) 16
    have d1 : a / 4 * 4 + a % 4 * 16 / 16 = a := by
      have e := mulAddDivLt 16 (a % 4) 0 (by norm_num) (by norm_num)
      rw [Nat.add_zero] at e
      rw [e]
      omega
    show decodeB64Block (sextetChar (a / 4)) (sextetChar (a % 4 * 16)) '=' '=' = some [a]
    simp only [decodeB64Block, charSextet_sextetChar _ h1, charSextet_sextetChar _ h2,
      if_pos rfl, hm, if_pos, d1]
  | [a, b], h => by
    have ha : a < 256 := h a (by simp)
    have hb : b < 256 := h b (by simp)
    have h1 : a / 4 < 64 := by omega
    have h2 : a % 4 * 16 + b / 16 < 64 := by omega
    have h3 : b % 16 * 4 < 64 := by omega
    have hm : b % 16 * 4 % 4 = 0 := Nat.mul_mod_left (b % 16) 4
    have d1 : a / 4 * 4 + (a % 4 * 16 + b / 16) / 16 = a := by
      rw [mulAddDivLt 16 (a % 4) (b / 16) (by norm_num) (by omega)]
      omega
    have d2 : (a % 4 * 16 + b / 16) % 16 * 16 + b % 16 * 4 / 4 = b := by
      have e := mulAddDivLt 4 (b % 16) 0 (by norm_num) (by norm_num)
      rw [Nat.add_zero] at e
      rw [mulAddModLt 16 (a % 4) (b / 16) (by omega), e]
      omega
    show decodeB64Block (sextetChar (a / 4)) (sextetChar (a % 4 * 16 + b / 16))
        (sextetChar (b % 16 * 4)) '=' = some [a, b]
    simp only [decodeB64Block, charSextet_sextetChar _ h1, charSextet_sextetChar _ h2,
      if_neg (sextetChar_ne_pad _ h3), charSextet_sextetChar _ h3, if_pos rfl,
      hm, if_pos, d1, d2]
  | [a, b, c], h => by
    have ha : a < 256 := h a (by simp)
    have hb : b < 256 := h b (by simp)
    have hc : c < 256 := h c (by simp)
    have h1 : a / 4 < 64 := by omega
    have h2 : a % 4 * 16 + b / 16 < 64 := by omega
    have h3 : b % 16 * 4 + c / 64 < 64 := by omega
    have h4 : c % 64 < 64 := by omega
    have d1 : a / 4 * 4 + (a % 4 * 16 + b / 16) / 16 = a := by
      rw [mulAddDivLt 16 (a % 4) (b / 16) (by norm_num) (by omega)]
      omega
    have d2 : (a % 4 * 16 + b / 16) % 16 * 16 + (b % 16 * 4 + c / 64) / 4 = b := by
      rw [mulAddModLt 16 (a % 4) (b / 16) (by omega),
        mulAddDivLt 4 (b % 16) (c / 64) (by norm_num) (by omega)]
      omega
    have d3 : (b % 16 * 4 + c / 64) % 4 * 64 + c % 64 = c := by
      rw [mulAddModLt 4 (b % 16) (c / 64) (by omega)]
      omega
    show decodeB64Block (sextetChar (a / 4)) (sextetChar (a % 4 * 16 + b / 16))
        (sextetChar (b % 16 * 4 + c / 64)) (sextetChar (c % 64)) = some [a, b, c]
    simp only [decodeB64Block, charSextet_sextetChar _ h1, charSextet_sextetChar _ h2,
      if_neg (sextetChar_ne_pad _ h3), charSextet_sextetChar _ h3,
      if_neg (sextetChar_ne_pad _ h4), charSextet_sextetChar _ h4, d1, d2, d3]
  | a :: b :: c :: d :: rest, h => by
    have ha : a < 256 := h a (by simp)
    have hb : b < 256 := h b (by simp)
    have hc : c < 256 := h c (by simp)
    have h1 : a / 4 < 64 := by omega
    have h2 : a % 4 * 16 + b / 16 < 64 := by omega
    have h3 : b % 16 * 4 + c / 64 < 64 := by omega
    have h4 : c % 64 < 64 := by omega
    have ih := decodeB64_encodeB64 (d :: rest) (fun x hx => h x (by simp [hx]))
    have hne : encodeB64 (d :: rest) ≠ [] := encodeB64_ne_nil _ (by simp)
    rw [show encodeB64 (a :: b :: c :: d :: rest)
        = sextetChar (a / 4) :: sextetChar (a % 4 * 16 + b / 16) ::
          sextetChar (b % 16 * 4 + c / 64) :: sextetChar (c % 64)
            :: encodeB64 (d :: rest) from rfl]
    cases henc : encodeB64 (d :: rest) with
    | nil => exact absurd henc hne
    | cons e es =>
      rw [henc] at ih
      rw [show decodeB64 (sextetChar (a / 4) :: sextetChar (a % 4 * 16 + b / 16) ::
            sextetChar (b % 16 * 4 + c / 64) :: sextetChar (c % 64) :: e :: es)
          = match charSextet (sextetChar (a / 4)),
              charSextet (sextetChar (a % 4 * 16 + b / 16)),
              charSextet (sextetChar (b % 16 * 4 + c / 64)),
              charSextet (sextetChar (c % 64)), decodeB64 (e :: es) with
            | some s1, some s2, some s3, some s4, some tail =>
                some ((s1 * 4 + s2 / 16) :: (s2 % 16 * 16 + s3 / 4)
                  :: (s3 % 4 * 64 + s4) :: tail)
            | _, _, _, _, _ => none from rfl]
      rw [charSextet_sextetChar _ h1, charSextet_sextetChar _ h2,
        charSextet_sextetChar _ h3, charSextet_sextetChar _ h4, ih]
      have d1 : a / 4 * 4 + (a % 4 * 16 + b / 16) / 16 = a := by
        rw [mulAddDivLt 16 (a % 4) (b / 16) (by norm_num) (by omega)]
        omega
      have d2 : (a % 4 * 16 + b / 16) % 16 * 16 + (b % 16 * 4 + c / 64) / 4 = b := by
        rw [mulAddModLt 16 (a % 4) (b / 16) (by omega),
          mulAddDivLt 4 (b % 16) (c / 64) (by norm_num) (by omega)]
        omega
      have d3 : (b % 16 * 4 + c / 64) % 4 * 64 + c % 64 = c := by
        rw [mulAddModLt 4 (b % 16) (c / 64) (by omega)]
        omega
      simp only [d1, d2, d3]

/-! ### Progress-callback invariants -/

lemma callbacks_sorted (ps : List ℚ) (s : CallbackState)
    (h1 : List.Pairwise (· < ·) s.log) (h2 : ∀ x ∈ s.log, x ≤ s.lastLoggedPct) :
    List.Pairwise (· < ·) (List.foldl progressCallback s ps).log ∧
      ∀ x ∈ (List.foldl progressCallback s ps).log,
        x ≤ (List.foldl progressCallback s ps).lastLoggedPct := by
  induction ps generalizing s with
  | nil => exact ⟨h1, h2⟩
  | cons p ps ih =>
    simp only [List.foldl_cons]
    by_cases hc : pctOf p > s.lastLoggedPct
    · have hstep : progressCallback s p
          = { lastLoggedPct := pctOf p, log := s.log ++ [pctOf p] } := by
        simp [progressCallback, hc]
      rw [hstep]
      apply ih
      · refine List.pairwise_append.mpr ⟨h1, List.pairwise_singleton _ _, ?_⟩
        intro x hx y hy
        simp only [List.mem_singleton] at hy
        subst hy
        exact lt_of_le_of_lt (h2 x hx) hc
      · intro x hx
        simp only [List.mem_append, List.mem_singleton] at hx
        rcases hx with hx | hx
        · exact le_of_lt (lt_of_le_of_lt (h2 x hx) hc)
        · subst hx
          exact le_refl _
    · have hstep : progressCallback s p = s := by
        simp [progressCallback, hc]
      rw [hstep]
      exact ih s h1 h2

lemma callbacks_from_inputs (ps : List ℚ) (s : CallbackState) :
    ∀ x ∈ (List.foldl progressCallback s ps).log,
      x ∈ s.log ∨ ∃ q ∈ ps, x = pctOf q := by
  induction ps generalizing s with
  | nil =>
    intro x hx
    exact Or.inl hx
  | cons p ps ih =>
    intro x hx
    simp only [List.foldl_cons] at hx
    rcases ih (progressCallback s p) x hx with hmem | ⟨q, hq, hx⟩
    · by_cases hc : pctOf p > s.lastLoggedPct
      · rw [show progressCallback s p
            = { lastLoggedPct := pctOf p, log := s.log ++ [pctOf p] } by
            simp [progressCallback, hc]] at hmem
        simp only [List.mem_append, List.mem_singleton] at hmem
        rcases hmem with hmem | hmem
        · exact Or.inl hmem
        · exact Or.inr ⟨p, by simp, hmem⟩
      · rw [show progressCallback s p = s by simp [progressCallback, hc]] at hmem
        exact Or.inl hmem
    · exact Or.inr ⟨q, by simp [hq], hx⟩

/-! ### Endpoint pipeline lemmas -/

lemma render_exit_msg_ne_empty (t : String) :
    ("Render process exited with code " ++ t) ≠ "" := by
  intro h
  have hlen := congrArg String.length h
  rw [String.length_append] at hlen
  have h1 : ("Render process exited with code ").length = 32 := rfl
  have h2 : ("" : String).length = 0 := rfl
  omega

lemma render_video_fst_cases (au bu bt : String) (caps : List J) (dur : ℚ)
    (gc : Option (List J)) (hk : Option String) (pis : Option (List J)) (w : World) :
    (render_video au bu bt caps dur gc hk pis w).1
      = if w.returncode ≠ 0 then
          Except.error ("Render process exited with code " ++ toString w.returncode)
        else if w.outputExists = false then
          Except.error "Output file not found at /tmp/output.mp4"
        else Except.ok w.outputContents := by
  by_cases hr : w.returncode ≠ 0
  · simp [render_video, hr]
  · by_cases he : w.outputExists = false
    · simp [render_video, hr, he]
    · simp [render_video, hr, he]

lemma pipeline_error_ne_empty (data : RequestData) (w : World) (e : String)
    (h : (endpointPipeline data w).1 = Except.error e) : e ≠ "" := by
  rcases data with ⟨au, bu, bt, caps, dur, gc, hk, pis⟩
  cases au with
  | none =>
    simp only [endpointPipeline, getRequired] at h
    simp only [Except.error.injEq] at h
    subst h
    decide
  | some au =>
  cases bu with
  | none =>
    simp only [endpointPipeline, getRequired] at h
    simp only [Except.error.injEq] at h
    subst h
    decide
  | some bu =>
  cases bt with
  | none =>
    simp only [endpointPipeline, getRequired] at h
    simp only [Except.error.injEq] at h
    subst h
    decide
  | some bt =>
  cases dur with
  | none =>
    simp only [endpointPipeline, getRequired] at h
    simp only [Except.error.injEq] at h
    subst h
    decide
  | some dur =>
  simp only [endpointPipeline, getRequired] at h
  rw [render_video_fst_cases] at h
  by_cases hr : w.returncode ≠ 0
  · rw [if_pos hr] at h
    simp only [Except.error.injEq] at h
    subst h
    exact render_exit_msg_ne_empty _
  · rw [if_neg hr] at h
    by_cases he : w.outputExists = false
    · rw [if_pos he] at h
      simp only [Except.error.injEq] at h
      subst h
      decide
    · rw [if_neg he] at h
      exact absurd h (by simp)

lemma pipeline_ok_eq (data : RequestData) (w : World) (bs : List ℕ)
    (h : (endpointPipeline data w).1 = Except.ok bs) : bs = w.outputContents := by
  rcases data with ⟨au, bu, bt, caps, dur, gc, hk, pis⟩
  cases au with
  | none => simp [endpointPipeline, getRequired] at h
  | some au =>
  cases bu with
  | none => simp [endpointPipeline, getRequired] at h
  | some bu =>
  cases bt with
  | none => simp [endpointPipeline, getRequired] at h
  | some bt =>
  cases dur with
  | none => simp [endpointPipeline, getRequired] at h
  | some dur =>
  simp only [endpointPipeline, getRequired] at h
  rw [render_video_fst_cases] at h
  by_cases hr : w.returncode ≠ 0
  · rw [if_pos hr] at h
    exact absurd h (by simp)
  · rw [if_neg hr] at h
    by_cases he : w.outputExists = false
    · rw [if_pos he] at h
      exact absurd h (by simp)
    · rw [if_neg he] at h
      simp only [Except.ok.injEq] at h
      exact h.symm

lemma endpoint_resp_of_error (data : RequestData) (w : World) (e : String)
    (h : (endpointPipeline data w).1 = Except.error e) :
    (render_video_endpoint data w).1
      = [("success", J.bool false), ("error", J.str e)] := by
  rcases hpe : endpointPipeline data w with ⟨r, tr⟩
  rw [hpe] at h
  simp only at h
  subst h
  simp [render_video_endpoint, hpe]

lemma endpoint_resp_of_ok (data : RequestData) (w : World) (bs : List ℕ)
    (h : (endpointPipeline data w).1 = Except.ok bs) :
    (render_video_endpoint data w).1
      = [("success", J.bool true),
         ("videoBase64", J.str (String.mk (encodeB64 bs))),
         ("size", J.num (bs.length : ℚ))] := by
  rcases hpe : endpointPipeline data w with ⟨r, tr⟩
  rw [hpe] at h
  simp only at h
  subst h
  simp [render_video_endpoint, hpe]

lemma subprocess_in_trace (au bu bt : String) (caps : List J) (dur : ℚ)
    (gc : Option (List J)) (hk : Option String) (pis : Option (List J)) (w : World) :
    FsAction.runSubprocess "node" "/app/video/render.js"
        (J.obj (paramsObj au bu bt caps dur gc hk pis)) "/app/video"
      ∈ (render_video au bu bt caps dur gc hk pis w).2 := by
  by_cases hr : w.returncode ≠ 0
  · simp [render_video, hr]
  · by_cases he : w.outputExists = false
    · simp [render_video, hr, he]
    · simp [render_video, hr, he]

lemma endpoint_trace_eq (au bu bt : String) (caps : Option (List J)) (dur : ℚ)
    (gc : Option (List J)) (hk : Option String) (pis : Option (List J)) (w : World) :
    (render_video_endpoint ⟨some au, some bu, some bt, caps, some dur, gc, hk, pis⟩ w).2
      = (render_video au bu bt (caps.getD []) dur gc hk pis w).2 := by
  rcases hre : render_video au bu bt (caps.getD []) dur gc hk pis w with ⟨r, tr⟩
  simp only [render_video_endpoint, endpointPipeline, getRequired]
  rw [hre]
  cases r <;> rfl

/-! ### The claims -/

/-- C1: whenever the child render subprocess exits with a non-zero code, the
invoker raises `Exception("Render process exited with code <code>")` — a
message naming the exit code — its effect trace contains no existence
check, stat, or read of any file (so in particular none of the output
file), and it does not return bytes. -/
theorem render_video_nonzero_exit_raises (au bu bt : String) (caps : List J)
    (dur : ℚ) (gc : Option (List J)) (hk : Option String) (pis : Option (List J))
    (w : World) (h : w.returncode ≠ 0) :
    (render_video au bu bt caps dur gc hk pis w).1
        = Except.error ("Render process exited with code " ++ toString w.returncode) ∧
    returnsBytes (render_video au bu bt caps dur gc hk pis w).1 = false ∧
    ((render_video au bu bt caps dur gc hk pis w).2.all
        fun a => !checksOrReadsFile a) = true := by
  refine ⟨?_, ?_, ?_⟩ <;>
    simp [render_video, h, returnsBytes, checksOrReadsFile]

/-- C1 witness: concrete invocation with exit code 1. -/
theorem render_video_nonzero_exit_raises_witness :
    (render_video "a" "" "gradient" [] 5 none none none ⟨1, false, []⟩).1
        = Except.error ("Render process exited with code "
            ++ toString (⟨1, false, []⟩ : World).returncode) ∧
    returnsBytes (render_video "a" "" "gradient" [] 5 none none none ⟨1, false, []⟩).1
        = false ∧
    ((render_video "a" "" "gradient" [] 5 none none none ⟨1, false, []⟩).2.all
        fun a => !checksOrReadsFile a) = true :=
  render_video_nonzero_exit_raises "a" "" "gradient" [] 5 none none none
    ⟨1, false, []⟩ (by decide)

/-- C2: when the child exits 0 but `/tmp/output.mp4` does not exist, the
invoker raises the distinct message
`"Output file not found at /tmp/output.mp4"`; its trace contains the
existence check but no file read, and it does not return bytes. -/
theorem render_video_missing_output_raises (au bu bt : String) (caps : List J)
    (dur : ℚ) (gc : Option (List J)) (hk : Option String) (pis : Option (List J))
    (w : World) (h0 : w.returncode = 0) (h1 : w.outputExists = false) :
    (render_video au bu bt caps dur gc hk pis w).1
        = Except.error "Output file not found at /tmp/output.mp4" ∧
    returnsBytes (render_video au bu bt caps dur gc hk pis w).1 = false ∧
    FsAction.checkExists "/tmp/output.mp4"
        ∈ (render_video au bu bt caps dur gc hk pis w).2 ∧
    ((render_video au bu bt caps dur gc hk pis w).2.all
        fun a => !isReadFile a) = true := by
  refine ⟨?_, ?_, ?_, ?_⟩ <;>
    simp [render_video, h0, h1, returnsBytes, isReadFile]

/-- C2 witness: concrete invocation, exit 0, no output file. -/
theorem render_video_missing_output_raises_witness :
    (render_video "a" "" "gradient" [] 5 none none none ⟨0, false, []⟩).1
        = Except.error "Output file not found at /tmp/output.mp4" ∧
    returnsBytes (render_video "a" "" "gradient" [] 5 none none none ⟨0, false, []⟩).1
        = false ∧
    FsAction.checkExists "/tmp/output.mp4"
        ∈ (render_video "a" "" "gradient" [] 5 none none none ⟨0, false, []⟩).2 ∧
    ((render_video "a" "" "gradient" [] 5 none none none ⟨0, false, []⟩).2.all
        fun a => !isReadFile a) = true :=
  render_video_missing_output_raises "a" "" "gradient" [] 5 none none none
    ⟨0, false, []⟩ rfl rfl

/-- C3: the endpoint body always carries a boolean `success` key; when the
invocation pipeline raises, the response is exactly
`{"success": false, "error": e}` with `e` non-empty and no `videoBase64`
key; when it returns bytes, the response carries `success = true`,
`videoBase64` and `size`. -/
theorem endpoint_success_flag_shape (data : RequestData) (w : World) :
    (∃ b : Bool,
      jlookup "success" (render_video_endpoint data w).1 = some (J.bool b)) ∧
    (∀ e : String, (endpointPipeline data w).1 = Except.error e →
      (render_video_endpoint data w).1
          = [("success", J.bool false), ("error", J.str e)] ∧
      e ≠ "" ∧
      jlookup "videoBase64" (render_video_endpoint data w).1 = none) ∧
    (∀ bs : List ℕ, (endpointPipeline data w).1 = Except.ok bs →
      jlookup "success" (render_video_endpoint data w).1 = some (J.bool true) ∧
      jlookup "videoBase64" (render_video_endpoint data w).1
          = some (J.str (String.mk (encodeB64 bs))) ∧
      jlookup "size" (render_video_endpoint data w).1
          = some (J.num (bs.length : ℚ))) := by
  refine ⟨?_, ?_, ?_⟩
  · cases hpr : (endpointPipeline data w).1 with
    | ok bs =>
      exact ⟨true, by rw [endpoint_resp_of_ok data w bs hpr]; rfl⟩
    | error e =>
      exact ⟨false, by rw [endpoint_resp_of_error data w e hpr]; rfl⟩
  · intro e he
    refine ⟨endpoint_resp_of_error data w e he,
      pipeline_error_ne_empty data w e he, ?_⟩
    rw [endpoint_resp_of_error data w e he]
    rfl
  · intro bs hb
    rw [endpoint_resp_of_ok data w bs hb]
    exact ⟨rfl, rfl, rfl⟩

/-- C3 witness: for a body with all required keys and a child that exits 1,
the response is exactly the failure dict with a non-empty message and no
`videoBase64`. -/
theorem endpoint_success_flag_shape_witness :
    (render_video_endpoint
        ⟨some "a", some "", some "gradient", none, some 5, none, none, none⟩
        ⟨1, false, []⟩).1
      = [("success", J.bool false),
         ("error", J.str "Render process exited with code 1")] ∧
    "Render process exited with code 1" ≠ "" ∧
    jlookup "videoBase64"
        (render_video_endpoint
          ⟨some "a", some "", some "gradient", none, some 5, none, none, none⟩
          ⟨1, false, []⟩).1 = none :=
  (endpoint_success_flag_shape
      ⟨some "a", some "", some "gradient", none, some 5, none, none, none⟩
      ⟨1, false, []⟩).2.1
    "Render process exited with code 1" rfl

/-- C4: on a successful request the bytes returned by `render_video` are the
full contents of `/tmp/output.mp4` (in the model a file's size is the length
of its contents, so the lengths agree), `videoBase64` is their base64
encoding, decoding it yields exactly those bytes back, and `size` is their
length. -/
theorem endpoint_success_roundtrip (data : RequestData) (w : World) (bs : List ℕ)
    (hb : ∀ b ∈ w.outputContents, b < 256)
    (h : (endpointPipeline data w).1 = Except.ok bs) :
    bs = w.outputContents ∧
    bs.length = w.outputContents.length ∧
    jlookup "videoBase64" (render_video_endpoint data w).1
        = some (J.str (String.mk (encodeB64 bs))) ∧
    decodeB64 (encodeB64 bs) = some bs ∧
    jlookup "size" (render_video_endpoint data w).1
        = some (J.num (bs.length : ℚ)) := by
  have hbs := pipeline_ok_eq data w bs h
  subst hbs
  refine ⟨rfl, rfl, ?_, decodeB64_encodeB64 _ hb, ?_⟩
  · rw [endpoint_resp_of_ok data w _ h]
    rfl
  · rw [endpoint_resp_of_ok data w _ h]
    rfl

/-- C4 witness: concrete request, output file holding bytes 0, 255, 77. -/
theorem endpoint_success_roundtrip_witness :
    [0, 255, 77] = (⟨0, true, [0, 255, 77]⟩ : World).outputContents ∧
    ([0, 255, 77] : List ℕ).length
        = (⟨0, true, [0, 255, 77]⟩ : World).outputContents.length ∧
    jlookup "videoBase64"
        (render_video_endpoint
          ⟨some "a", some "", some "gradient", none, some 5, none, none, none⟩
          ⟨0, true, [0, 255, 77]⟩).1
        = some (J.str (String.mk (encodeB64 [0, 255, 77]))) ∧
    decodeB64 (encodeB64 [0, 255, 77]) = some [0, 255, 77] ∧
    jlookup "size"
        (render_video_endpoint
          ⟨some "a", some "", some "gradient", none, some 5, none, none, none⟩
          ⟨0, true, [0, 255, 77]⟩).1
        = some (J.num (([0, 255, 77] : List ℕ).length : ℚ)) :=
  endpoint_success_roundtrip
    ⟨some "a", some "", some "gradient", none, some 5, none, none, none⟩
    ⟨0, true, [0, 255, 77]⟩ [0, 255, 77] (by decide) rfl

/-- C5: a body with `gradientColors` and `patternInterrupts` absent leads to
a driver invocation whose parameter object carries
`["#1a1a2e", "#16213e"]` and `[]` for those keys. -/
theorem endpoint_absent_optional_defaults (au bu bt : String)
    (caps : Option (List J)) (dur : ℚ) (hk : Option String) (w : World) :
    FsAction.runSubprocess "node" "/app/video/render.js"
        (J.obj (paramsObj au bu bt (caps.getD []) dur none hk none)) "/app/video"
      ∈ (render_video_endpoint
          ⟨some au, some bu, some bt, caps, some dur, none, hk, none⟩ w).2 ∧
    jlookup "gradientColors" (paramsObj au bu bt (caps.getD []) dur none hk none)
      = some (J.arr [J.str "#1a1a2e", J.str "#16213e"]) ∧
    jlookup "patternInterrupts" (paramsObj au bu bt (caps.getD []) dur none hk none)
      = some (J.arr []) := by
  refine ⟨?_, rfl, rfl⟩
  rw [endpoint_trace_eq]
  exact subprocess_in_trace au bu bt (caps.getD []) dur none hk none w

/-- C7: a body with the four required keys but no `captions` key runs the
pipeline as `render_video` with an empty caption list (no `KeyError`), and
the forwarded parameter object carries `captions = []`. -/
theorem endpoint_captions_absent_default (au bu bt : String) (dur : ℚ)
    (gc : Option (List J)) (hk : Option String) (pis : Option (List J)) (w : World) :
    endpointPipeline ⟨some au, some bu, some bt, none, some dur, gc, hk, pis⟩ w
        = render_video au bu bt [] dur gc hk pis w ∧
    jlookup "captions" (paramsObj au bu bt [] dur gc hk pis) = some (J.arr []) ∧
    FsAction.runSubprocess "node" "/app/video/render.js"
        (J.obj (paramsObj au bu bt [] dur gc hk pis)) "/app/video"
      ∈ (render_video_endpoint
          ⟨some au, some bu, some bt, none, some dur, gc, hk, pis⟩ w).2 := by
  refine ⟨rfl, rfl, ?_⟩
  rw [endpoint_trace_eq]
  exact subprocess_in_trace au bu bt [] dur gc hk pis w

/-- C9: passing an explicit empty list for `gradient_colors` or
`pattern_interrupts` yields exactly the same invocation as omitting the
argument — Python `or` replaces both falsy values (`None` and `[]`) with
the defaults, so an empty list cannot reach the driver for these keys. -/
theorem render_video_falsy_optional_args (au bu bt : String) (caps : List J)
    (dur : ℚ) (gc : Option (List J)) (hk : Option String)
    (pis : Option (List J)) (w : World) :
    paramsObj au bu bt caps dur (some []) hk pis
        = paramsObj au bu bt caps dur none hk pis ∧
    paramsObj au bu bt caps dur gc hk (some [])
        = paramsObj au bu bt caps dur gc hk none ∧
    render_video au bu bt caps dur (some []) hk (some []) w
        = render_video au bu bt caps dur none hk none w ∧
    jlookup "gradientColors" (paramsObj au bu bt caps dur (some []) hk pis)
        = some (J.arr [J.str "#1a1a2e", J.str "#16213e"]) ∧
    jlookup "patternInterrupts" (paramsObj au bu bt caps dur gc hk (some []))
        = some (J.arr []) :=
  ⟨rfl, rfl, rfl, rfl, rfl⟩

/-- C10: the driver script written to `/app/video/render.js` is the fixed
constant `render_script` for every invocation — the first trace action is
always writing exactly that string — and two invocations differing only in
request parameters have identical traces once the single JSON command-line
argument is blanked out: request data reaches the child only through that
argument. -/
theorem driver_script_constant (au1 bu1 bt1 : String) (caps1 : List J)
    (dur1 : ℚ) (gc1 : Option (List J)) (hk1 : Option String)
    (pis1 : Option (List J)) (au2 bu2 bt2 : String) (caps2 : List J)
    (dur2 : ℚ) (gc2 : Option (List J)) (hk2 : Option String)
    (pis2 : Option (List J)) (w : World) :
    ((render_video au1 bu1 bt1 caps1 dur1 gc1 hk1 pis1 w).2.map eraseJsonArg)
        = ((render_video au2 bu2 bt2 caps2 dur2 gc2 hk2 pis2 w).2.map eraseJsonArg) ∧
    (render_video au1 bu1 bt1 caps1 dur1 gc1 hk1 pis1 w).2.head?
        = some (FsAction.writeFile "/app/video/render.js" render_script) := by
  by_cases hr : w.returncode ≠ 0
  · refine ⟨?_, ?_⟩ <;> simp [render_video, hr, eraseJsonArg]
  · by_cases he : w.outputExists = false
    · refine ⟨?_, ?_⟩ <;> simp [render_video, hr, he, eraseJsonArg]
    · refine ⟨?_, ?_⟩ <;> simp [render_video, hr, he, eraseJsonArg]

/-- C6 counterexample: the claim that the driver substitutes a default for
each of `gradientColors`, `hook` and `patternInterrupts` when absent is
false — the script passes `hook: params.hook` through with no `||` default,
so an absent `hook` stays absent (`undefined`) in the `variables` object.
Refuted at the argument object with every field absent. -/
theorem driver_defaults_claim_false :
    ¬ (∀ params : DriverArgs,
        (params.gradientColors = none →
          (render_script_variables params).gradientColors
            = J.arr defaultGradientColors) ∧
        (params.hook = none →
          ((render_script_variables params).hook).isSome = true) ∧
        (params.patternInterrupts = none →
          (render_script_variables params).patternInterrupts = J.arr [])) := by
  intro hcl
  have h := (hcl ⟨none, none, none, none, none, none, none, none⟩).2.1 rfl
  simp [render_script_variables] at h

/-- C6 amended: for every argument object, `gradientColors` gets its `||`
default in the `variables` object whenever it alone is absent,
`patternInterrupts` likewise whenever it alone is absent, and `hook` is
always passed through unchanged (absent stays absent) — each field
independently of the others. -/
theorem driver_variable_defaults (params : DriverArgs) :
    (params.gradientColors = none →
      (render_script_variables params).gradientColors
        = J.arr defaultGradientColors) ∧
    (params.patternInterrupts = none →
      (render_script_variables params).patternInterrupts = J.arr []) ∧
    (render_script_variables params).hook = params.hook := by
  refine ⟨?_, ?_, rfl⟩ <;> intro h <;> simp [render_script_variables, jsOr, h]

/-- C6 amended witness: at the all-absent argument object, both per-field
hypotheses are discharged and the hook passthrough is instantiated. -/
theorem driver_variable_defaults_witness :
    (render_script_variables
        ⟨none, none, none, none, none, none, none, none⟩).gradientColors
        = J.arr defaultGradientColors ∧
    (render_script_variables
        ⟨none, none, none, none, none, none, none, none⟩).patternInterrupts
        = J.arr [] ∧
    (render_script_variables
        ⟨none, none, none, none, none, none, none, none⟩).hook
        = (⟨none, none, none, none, none, none, none, none⟩ : DriverArgs).hook :=
  ⟨(driver_variable_defaults ⟨none, none, none, none, none, none, none, none⟩).1 rfl,
   (driver_variable_defaults ⟨none, none, none, none, none, none, none, none⟩).2.1 rfl,
   (driver_variable_defaults ⟨none, none, none, none, none, none, none, none⟩).2.2⟩

/-- C8: over any sequence of delivered progress values, the logged
percentages are strictly increasing in order of logging (a value ≤ the
highest already logged is never logged again), and every logged value is a
multiple of 10 equal to some delivered progress rounded down to the nearest
10% (`Math.floor(progress * 10) * 10`). -/
theorem progress_log_increasing (ps : List ℚ) :
    List.Pairwise (· < ·) (runCallbacks ps).log ∧
    ((runCallbacks ps).log.all fun x =>
        decide (x % 10 = 0) && ps.any fun q => decide (x = pctOf q)) = true := by
  refine ⟨?_, ?_⟩
  · exact (callbacks_sorted ps initCallbackState List.Pairwise.nil
      (by intro x hx; simp [initCallbackState] at hx)).1
  · rw [List.all_eq_true]
    intro x hx
    rcases callbacks_from_inputs ps initCallbackState x hx with hmem | ⟨q, hq, hxq⟩
    · simp [initCallbackState] at hmem
    · rw [Bool.and_eq_true]
      constructor
      · rw [decide_eq_true_eq, hxq]
        unfold pctOf
        omega
      · rw [List.any_eq_true]
        exact ⟨q, hq, by rw [decide_eq_true_eq]; exact hxq⟩

end Spool
